import Mathlib

/-!
Verification of the kalshi-cli contract reader (src/kalshi-cli.py).

The program keeps one Python dictionary `self.current_data` (the StateStore
of the specification) holding the merged view of a single contract, updates
it from inbound WebSocket messages in `ContractReader.update_from_message`
(lines 208-251), and runs a connect / subscribe / listen / reconnect loop in
`ContractReader.run` (lines 279-329).  Requests are signed in `sign_request`
(lines 103-123).

Embedding choices:
* A JSON scalar stored in the dictionary is `Val` (null, integer or string).
* The dictionary is `ContractData`: each field is `Option Val`, where `none`
  means the key is absent from the dictionary and `some Val.vnull` means the
  key is present with the value `None` — the two are distinct for Python
  dictionary equality (`self.current_data != old_data`, line 314), which is
  how the program decides whether anything changed.
* An inbound message is `Msg`: the `type` tag plus every payload key that
  `update_from_message` reads, each `Option Val` (`none` = key absent).  The
  order-book level lists `yes` / `no` model `data.get("yes", [])`; a level is
  a non-empty JSON array modelled as head × tail (the source indexes
  `yes_bids[0][0]`, so an empty level would raise and is outside the
  modelled message space).
* The exception-driven control flow of `ContractReader.run` is embedded as
  the explicit step function `runStep` on `RunState`, with one `RunEvent`
  per outcome of an iteration.
* A raw inbound frame is `Option Json` (`none` = bytes `json.loads`
  rejects); `frameRaises` traces over raw JSON which decoded frames make
  `update_from_message` raise — such an exception escapes the listening
  loop, whose handlers catch only `TimeoutError` and `JSONDecodeError`,
  into the generic handler at line 327 — and `frameFate` classifies a frame
  as skipped, raising, or applied.
-/

namespace KalshiCli

/-- A JSON scalar value as stored in the `current_data` dictionary or carried
by a message payload field. -/
inductive Val
  | vnull
  | vint (n : Int)
  | vstr (s : String)
deriving DecidableEq, Repr

/-- The fields of the contract dictionary (the keys ever written by
`fetch_initial_data`, lines 150-161, and `update_from_message`). -/
inductive Field
  | title
  | subtitle
  | status
  | yes_bid
  | yes_ask
  | no_bid
  | no_ask
  | last_price
  | volume
  | open_interest
deriving DecidableEq, Repr

/-- The `self.current_data` dictionary: each field is `none` when the key is
absent, `some v` when the key is present with value `v` (possibly null). -/
structure ContractData where
  title : Option Val
  subtitle : Option Val
  status : Option Val
  yes_bid : Option Val
  yes_ask : Option Val
  no_bid : Option Val
  no_ask : Option Val
  last_price : Option Val
  volume : Option Val
  open_interest : Option Val
deriving DecidableEq, Repr

/-- Look a field up in the dictionary. -/
def getField (f : Field) (s : ContractData) : Option Val :=
  match f with
  | .title => s.title
  | .subtitle => s.subtitle
  | .status => s.status
  | .yes_bid => s.yes_bid
  | .yes_ask => s.yes_ask
  | .no_bid => s.no_bid
  | .no_ask => s.no_ask
  | .last_price => s.last_price
  | .volume => s.volume
  | .open_interest => s.open_interest

/-- The freshly created store: `self.current_data = {}` (line 131). -/
def emptyData : ContractData :=
  ⟨none, none, none, none, none, none, none, none, none, none⟩

/-- An order-book level: a non-empty JSON array, price first
(`yes_bids[0][0]` reads the first component of the first level). -/
abbrev Lvl : Type := Val × List Val

/-- An inbound stream message `{type: ..., msg: {...}}`, restricted to the
keys that `update_from_message` reads.  `typ` is `msg.get("type")`;
every other field is `data.get(key)` on the payload `msg.get("msg", {})`.
`yes` / `no` are `data.get("yes", [])` and `data.get("no", [])`. -/
structure Msg where
  typ : Option Val
  market_ticker : Option Val
  ticker : Option Val
  yes : List Lvl
  no : List Lvl
  price : Option Val
  side : Option Val
  yes_price : Option Val
  title : Option Val
  status : Option Val
  yes_bid : Option Val
  yes_ask : Option Val
  no_bid : Option Val
  no_ask : Option Val
  last_price : Option Val
  volume : Option Val
  open_interest : Option Val
deriving DecidableEq, Repr

/-- A message whose payload carries nothing at all. -/
def emptyMsg : Msg :=
  ⟨none, none, none, [], [], none, none, none, none, none, none, none, none,
   none, none, none, none⟩

/-- `self.current_data[key] = data[key]` guarded by `if key in data`:
overwrite with the payload value when the key is present, else keep the old
stored value. -/
def put (new old : Option Val) : Option Val :=
  match new with
  | some v => some v
  | none => old

/-- Embedding of `ContractReader.update_from_message` (lines 208-251),
branch by branch:
* `orderbook_snapshot` (211-219): on a `market_ticker` match, overwrite
  `yes_bid` with the first component of the first `yes` level when the list
  is non-empty, and likewise `no_bid` from `no`.
* `orderbook_delta` (221-229): on a match, when `"price" in data`, overwrite
  `yes_bid` or `no_bid` according to `side`.
* `ticker` (231-237): on a match, overwrite each of the seven listed fields
  that is present in the payload.
* `trade` (239-243): on a match, set `last_price` to `data.get("yes_price")`
  (null when the key is absent), and set `volume` to `data.get("volume",
  self.current_data.get("volume", 0))`.
* `market` (245-251): on a `ticker`-key match, overwrite each of the six
  listed fields present in the payload.
* any other type: no change. -/
def update_from_message (cid : String) (s : ContractData) (m : Msg) : ContractData :=
  if m.typ = some (Val.vstr "orderbook_snapshot") then
    if m.market_ticker = some (Val.vstr cid) then
      match m.yes, m.no with
      | [], [] => s
      | [], (q, _) :: _ => { s with no_bid := some q }
      | (p, _) :: _, [] => { s with yes_bid := some p }
      | (p, _) :: _, (q, _) :: _ => { s with yes_bid := some p, no_bid := some q }
    else s
  else if m.typ = some (Val.vstr "orderbook_delta") then
    if m.market_ticker = some (Val.vstr cid) then
      match m.price with
      | none => s
      | some pv =>
        if m.side = some (Val.vstr "yes") then { s with yes_bid := some pv }
        else if m.side = some (Val.vstr "no") then { s with no_bid := some pv }
        else s
    else s
  else if m.typ = some (Val.vstr "ticker") then
    if m.market_ticker = some (Val.vstr cid) then
      { s with
        yes_bid := put m.yes_bid s.yes_bid
        yes_ask := put m.yes_ask s.yes_ask
        no_bid := put m.no_bid s.no_bid
        no_ask := put m.no_ask s.no_ask
        last_price := put m.last_price s.last_price
        volume := put m.volume s.volume
        open_interest := put m.open_interest s.open_interest }
    else s
  else if m.typ = some (Val.vstr "trade") then
    if m.market_ticker = some (Val.vstr cid) then
      { s with
        last_price := some (m.yes_price.getD Val.vnull)
        volume := some (m.volume.getD (s.volume.getD (Val.vint 0))) }
    else s
  else if m.typ = some (Val.vstr "market") then
    if m.ticker = some (Val.vstr cid) then
      { s with
        title := put m.title s.title
        status := put m.status s.status
        yes_bid := put m.yes_bid s.yes_bid
        yes_ask := put m.yes_ask s.yes_ask
        volume := put m.volume s.volume
        open_interest := put m.open_interest s.open_interest }
    else s
  else s

/-- The price of the first order-book level of a list, `yes_bids[0][0]`
(line 217), as an optional value: `none` when the list is empty. -/
def headPrice (l : List Lvl) : Option Val :=
  match l with
  | [] => none
  | (p, _) :: _ => some p

/-- The value a message explicitly carries for a field: `some v` exactly when
applying the message writes the state-independent value `v` into the field.
Derived from `update_from_message` branch by branch (the type tags are
mutually exclusive string literals, so the per-field regrouping below keeps
the same semantics as the elif chain); a matching `trade` carries
`last_price = data.get("yes_price")` rendered with null for an absent key
(line 242), and carries `volume` only when the payload has the key
(line 243 otherwise re-reads the stored volume). -/
def carried (cid : String) (m : Msg) (f : Field) : Option Val :=
  match f with
  | .title =>
      if m.typ = some (Val.vstr "market") ∧ m.ticker = some (Val.vstr cid) then
        m.title
      else none
  | .subtitle => none
  | .status =>
      if m.typ = some (Val.vstr "market") ∧ m.ticker = some (Val.vstr cid) then
        m.status
      else none
  | .yes_bid =>
      if m.typ = some (Val.vstr "orderbook_snapshot")
          ∧ m.market_ticker = some (Val.vstr cid) then
        headPrice m.yes
      else if m.typ = some (Val.vstr "orderbook_delta")
          ∧ m.market_ticker = some (Val.vstr cid)
          ∧ m.side = some (Val.vstr "yes") then
        m.price
      else if m.typ = some (Val.vstr "ticker")
          ∧ m.market_ticker = some (Val.vstr cid) then
        m.yes_bid
      else if m.typ = some (Val.vstr "market") ∧ m.ticker = some (Val.vstr cid) then
        m.yes_bid
      else none
  | .yes_ask =>
      if m.typ = some (Val.vstr "ticker") ∧ m.market_ticker = some (Val.vstr cid) then
        m.yes_ask
      else if m.typ = some (Val.vstr "market") ∧ m.ticker = some (Val.vstr cid) then
        m.yes_ask
      else none
  | .no_bid =>
      if m.typ = some (Val.vstr "orderbook_snapshot")
          ∧ m.market_ticker = some (Val.vstr cid) then
        headPrice m.no
      else if m.typ = some (Val.vstr "orderbook_delta")
          ∧ m.market_ticker = some (Val.vstr cid)
          ∧ m.side = some (Val.vstr "no") then
        m.price
      else if m.typ = some (Val.vstr "ticker")
          ∧ m.market_ticker = some (Val.vstr cid) then
        m.no_bid
      else none
  | .no_ask =>
      if m.typ = some (Val.vstr "ticker") ∧ m.market_ticker = some (Val.vstr cid) then
        m.no_ask
      else none
  | .last_price =>
      if m.typ = some (Val.vstr "ticker") ∧ m.market_ticker = some (Val.vstr cid) then
        m.last_price
      else if m.typ = some (Val.vstr "trade")
          ∧ m.market_ticker = some (Val.vstr cid) then
        some (m.yes_price.getD Val.vnull)
      else none
  | .volume =>
      if m.typ = some (Val.vstr "ticker") ∧ m.market_ticker = some (Val.vstr cid) then
        m.volume
      else if m.typ = some (Val.vstr "trade")
          ∧ m.market_ticker = some (Val.vstr cid) then
        m.volume
      else if m.typ = some (Val.vstr "market") ∧ m.ticker = some (Val.vstr cid) then
        m.volume
      else none
  | .open_interest =>
      if m.typ = some (Val.vstr "ticker") ∧ m.market_ticker = some (Val.vstr cid) then
        m.open_interest
      else if m.typ = some (Val.vstr "market") ∧ m.ticker = some (Val.vstr cid) then
        m.open_interest
      else none

/-- The contract identifier embedded in a message: the payload key the code
compares against `self.contract_id` — `ticker` for the `market` type
(line 247), `market_ticker` for every other handled type (213, 223, 233,
241). -/
def embeddedId (m : Msg) : Option Val :=
  if m.typ = some (Val.vstr "market") then m.ticker else m.market_ticker

/-- Apply a whole sequence of messages, in wire order, to the store. -/
def applySeq (cid : String) (s : ContractData) (es : List Msg) : ContractData :=
  es.foldl (update_from_message cid) s

/-- The phases of `ContractReader.run` (lines 279-329). -/
inductive Phase
  | connecting
  | listening
  | waiting (delaySeconds : Nat)
  | exited (code : Nat)
deriving DecidableEq, Repr

/-- The observable state of the supervisor loop: the phase, the retained
contract dictionary, and the spinner counter `self.spinner_index`. -/
structure RunState where
  phase : Phase
  data : ContractData
  spinner : Nat
deriving DecidableEq, Repr

/-- The outcome of one step of `ContractReader.run`:
signing succeeds or raises (lines 289-294); one iteration of the inner
receive loop ends in a timeout (316-317), a frame that `json.loads` rejects
(318-319), or a handled message (310-315); the connection reports closed,
or any other exception surfaces inside the session block — a transport
failure, or an error escaping `update_from_message` on a frame of
unexpected shape (see `frameRaises`) — reaching the handlers at lines
324-329; or the fixed reconnect delay elapses. -/
inductive RunEvent
  | signOk
  | signFail
  | recvTimeout
  | recvMalformed
  | recvMsg (m : Msg)
  | connClosed
  | connError
  | delayDone
deriving DecidableEq, Repr

/-- Embedding of the control flow of `ContractReader.run` as a step
function.  Read off the source:
* connecting + signing failure → `sys.exit(1)` (line 294); `SystemExit`
  derives from `BaseException`, not `Exception`, so the handler at line 327
  does not catch it and the process exits with status 1.
* connecting + signing success → connect, `subscribe` (line 306), enter the
  inner receive loop.
* connecting/listening + connection closure, or any other exception
  surfacing from the session block (a transport failure, or an error
  escaping the message handler) → the handlers at lines 324-329: print,
  then wait the fixed 5 seconds; the dictionary and spinner are untouched
  by the handler itself.
* listening + timeout → `pass` (line 317), then `spinner_index += 1`
  (line 321).
* listening + unparseable frame → `continue` (line 319): the iteration is
  abandoned before line 321, so the spinner is NOT advanced.
* listening + parsed message → `update_from_message`, then
  `spinner_index += 1`.
* waiting + delay elapsed → back to the top of the `while True` loop
  (connecting). -/
def runStep (cid : String) (st : RunState) (e : RunEvent) : RunState :=
  match st.phase, e with
  | .connecting, .signOk => { st with phase := .listening }
  | .connecting, .signFail => { st with phase := .exited 1 }
  | .connecting, .connClosed => { st with phase := .waiting 5 }
  | .connecting, .connError => { st with phase := .waiting 5 }
  | .listening, .recvTimeout => { st with spinner := st.spinner + 1 }
  | .listening, .recvMalformed => st
  | .listening, .recvMsg m =>
      { st with data := update_from_message cid st.data m,
                spinner := st.spinner + 1 }
  | .listening, .connClosed => { st with phase := .waiting 5 }
  | .listening, .connError => { st with phase := .waiting 5 }
  | .waiting _, .delayDone => { st with phase := .connecting }
  | _, _ => st

/-- One subscribe command `{id: ..., cmd: "subscribe", params: {channels:
[...], market_tickers: [...]}}` (lines 254-277). -/
structure SubscribeCmd where
  id : Nat
  channels : List String
  market_tickers : List String
deriving DecidableEq, Repr

/-- The three subscribe commands `ContractReader.subscribe` sends on every
new connection (lines 253-277). -/
def subscribeCommands (cid : String) : List SubscribeCmd :=
  [⟨1, ["ticker"], [cid]⟩, ⟨2, ["orderbook_delta"], [cid]⟩, ⟨3, ["trade"], [cid]⟩]

/-- A decoded JSON document, as returned by `json.loads` (line 311).
Booleans and non-integer numbers do not occur in the modelled frame space
(numbers are modelled as integers, as in `Val`). -/
inductive Json
  | jnull
  | jint (n : Int)
  | jstr (s : String)
  | jlist (l : List Json)
  | jobj (kvs : List (String × Json))

/-- Python dict lookup on a JSON object as produced by `json.loads`: with
duplicate keys the last binding wins; `none` when the key is absent
(`dict.get` returning `None`). -/
def jlookup (kvs : List (String × Json)) (k : String) : Option Json :=
  match kvs with
  | [] => none
  | (k', v) :: tl =>
    match jlookup tl k with
    | some w => some w
    | none => if k' = k then some v else none

/-- Whether an optional JSON value equals a given Python string (the `==`
comparisons `msg.get("type") == "..."` and
`data.get("market_ticker") == self.contract_id`: true only when the value
is exactly that string). -/
def isStr (o : Option Json) (t : String) : Bool :=
  match o with
  | some (.jstr s) => s == t
  | _ => false

/-- Python truthiness of a JSON value (`if yes_bids:` at lines 216/218):
null, zero, and empty strings, lists and objects are falsy. -/
def truthy (j : Json) : Bool :=
  match j with
  | .jnull => false
  | .jint n => n != 0
  | .jstr s => !s.isEmpty
  | .jlist l => !l.isEmpty
  | .jobj kvs => !kvs.isEmpty

/-- Python subscript `x[0]` on a JSON value: the head of a non-empty list,
or the first character (a one-character string) of a non-empty string;
anything else raises (IndexError on empty sequences, KeyError on objects —
JSON object keys are strings, so `0` is never present — TypeError on null
and numbers), modelled as `none`. -/
def index0 (j : Json) : Option Json :=
  match j with
  | .jlist (a :: _) => some a
  | .jstr s => if s.isEmpty then none else some (.jstr (s.take 1))
  | _ => none

/-- Whether `update_from_message` raises on a decoded frame, traced over raw
JSON from lines 208-251: `msg.get("type")` (line 209) raises AttributeError
unless the top level is an object; inside each of the five handled type
branches, `data.get(...)` raises unless `msg.get("msg", {})` is an object
(the default `{}` applies only when the key is absent); in a matching
`orderbook_snapshot`, `yes_bids[0][0]` (resp. `no_bids[0][0]`, lines
217/219) raises when the list value is truthy but not doubly
subscriptable.  The `orderbook_delta`, `ticker`, `trade` and `market`
branches perform no other raising operation (`in` tests, `.get` with
defaults, comparisons and dict stores cannot raise), and an unhandled type
tag falls through the elif chain as a no-op. -/
def frameRaises (cid : String) (j : Json) : Bool :=
  match j with
  | .jobj kvs =>
    let typ := jlookup kvs "type"
    let data := (jlookup kvs "msg").getD (.jobj [])
    if isStr typ "orderbook_snapshot" then
      match data with
      | .jobj dkvs =>
        if isStr (jlookup dkvs "market_ticker") cid then
          let yes_bids := (jlookup dkvs "yes").getD (.jlist [])
          let no_bids := (jlookup dkvs "no").getD (.jlist [])
          (truthy yes_bids && ((index0 yes_bids).bind index0).isNone)
            || (truthy no_bids && ((index0 no_bids).bind index0).isNone)
        else false
      | _ => true
    else if isStr typ "orderbook_delta" then
      match data with
      | .jobj _ => false
      | _ => true
    else if isStr typ "ticker" then
      match data with
      | .jobj _ => false
      | _ => true
    else if isStr typ "trade" then
      match data with
      | .jobj _ => false
      | _ => true
    else if isStr typ "market" then
      match data with
      | .jobj _ => false
      | _ => true
    else false
  | _ => true

/-- How the listening loop disposes of one inbound frame, as determined by
the decode and update stages. -/
inductive FrameFate
  | skipped
  | updateRaised
  | updated
deriving DecidableEq, Repr

/-- The disposition of a received frame (`none` = bytes that `json.loads`
rejects): a decode failure is skipped by the `json.JSONDecodeError` handler
(line 319, `continue` — same connection, no reconnect); a decoded frame on
which `update_from_message` raises escapes the listening loop — only
`TimeoutError` and `JSONDecodeError` are caught there — into the generic
`except Exception` handler at line 327 (5-second wait, then reconnect);
otherwise the update completes and the iteration proceeds to the redraw and
spinner stages (modelled at the typed level by `runStep`). -/
def frameFate (cid : String) (fr : Option Json) : FrameFate :=
  match fr with
  | none => .skipped
  | some j => if frameRaises cid j then .updateRaised else .updated

/-- The frame `[1,2,3]`: valid JSON whose top level is not an object. -/
def badFrame : Json := .jlist [.jint 1, .jint 2, .jint 3]

/-- Modelled from the spec: the RSA-PSS primitive of the external
cryptography library is not part of src/.  Per §4.1 and §8 of the spec, PSS
is a randomized padding scheme: a signature depends on a fresh salt, and
verification against the corresponding public key succeeds on exactly the
signed message.  The model makes the salt explicit, carries the private-key
transform of (salt, digest) as the signature body, and uses a perfect
digest (the message itself). -/
structure PssSig where
  salt : Nat
  body : Nat × String
deriving DecidableEq, Repr

/-- Modelled from the spec: the public half corresponding to a private key,
abstractly identified. -/
def pubOf (key : Nat) : Nat := key

/-- Modelled from the spec: PSS signing with an explicit random salt. -/
def pssSign (key salt : Nat) (msg : String) : PssSig :=
  ⟨salt, (salt + key, msg)⟩

/-- Modelled from the spec: PSS verification recomputes the transform from
the salt recovered out of the signature and checks it against the message. -/
def pssVerify (pub : Nat) (msg : String) (sig : PssSig) : Bool :=
  decide (sig.body = (sig.salt + pub, msg))

/-- Embedding of `sign_request` (lines 103-123): the canonical message is
`f"{timestamp}{method}{path}"` — the three parts concatenated with no
separators (line 105) — then signed with RSA-PSS.  The salt argument models
the randomness PSS draws at signing time; the final base64 encoding of the
signature bytes (line 123) is a bijective re-encoding omitted here. -/
def sign_request (private_key salt : Nat) (timestamp method path : String) : PssSig :=
  pssSign private_key salt (timestamp ++ method ++ path)

/-- A `trade` message for ticker MKT whose payload carries neither
`yes_price` nor `volume`. -/
def tradeBare : Msg :=
  { emptyMsg with
      typ := some (Val.vstr "trade")
      market_ticker := some (Val.vstr "MKT") }

/-- A `ticker` message for ticker MKT carrying only `yes_bid = 46`. -/
def tickerYes46 : Msg :=
  { emptyMsg with
      typ := some (Val.vstr "ticker")
      market_ticker := some (Val.vstr "MKT")
      yes_bid := some (Val.vint 46) }

/-- The `tickerYes46` message addressed to a different contract. -/
def tickerOther : Msg :=
  { tickerYes46 with market_ticker := some (Val.vstr "OTHER") }

/-- An `orderbook_snapshot` for ticker MKT with one `yes` level `[45, 100]`
and an empty `no` list. -/
def snapMsg : Msg :=
  { emptyMsg with
      typ := some (Val.vstr "orderbook_snapshot")
      market_ticker := some (Val.vstr "MKT")
      yes := [(Val.vint 45, [Val.vint 100])] }

/-- A store whose `last_price` key holds the (non-null) value 5. -/
def dataLp5 : ContractData :=
  { emptyData with last_price := some (Val.vint 5) }

theorem put_put (x y : Option Val) : put x (put x y) = put x y := by
  cases x <;> rfl

theorem getD_getD (o : Option Val) (z : Val) : o.getD (o.getD z) = o.getD z := by
  cases o <;> rfl

theorem data_ext_iff (s t : ContractData) : s = t ↔ ∀ f, getField f s = getField f t := by
  constructor
  · intro h f
    rw [h]
  · intro h
    cases s
    cases t
    simp only [ContractData.mk.injEq]
    exact ⟨h .title, h .subtitle, h .status, h .yes_bid, h .yes_ask, h .no_bid,
      h .no_ask, h .last_price, h .volume, h .open_interest⟩

set_option maxHeartbeats 1600000 in
theorem getField_update (cid : String) (s : ContractData) (m : Msg) (f : Field) :
    getField f (update_from_message cid s m) =
      if m.typ = some (Val.vstr "trade") ∧ m.market_ticker = some (Val.vstr cid)
          ∧ f = Field.volume ∧ m.volume = none then
        some ((getField Field.volume s).getD (Val.vint 0))
      else put (carried cid m f) (getField f s) := by
  by_cases t1 : m.typ = some (Val.vstr "orderbook_snapshot")
  · by_cases t2 : m.market_ticker = some (Val.vstr cid)
    · rcases hy : m.yes with _ | ⟨⟨p, pr⟩, yt⟩ <;>
        rcases hn : m.no with _ | ⟨⟨q, qr⟩, nt⟩ <;>
        cases f <;>
        simp [update_from_message, carried, headPrice, getField, put, t1, t2, hy, hn]
    · cases f <;> simp [update_from_message, carried, getField, put, t1, t2]
  · by_cases t2 : m.typ = some (Val.vstr "orderbook_delta")
    · by_cases t3 : m.market_ticker = some (Val.vstr cid)
      · rcases hp : m.price with _ | pv
        · cases f <;>
            simp [update_from_message, carried, getField, put, t1, t2, t3, hp]
        · by_cases t4 : m.side = some (Val.vstr "yes")
          · cases f <;>
              simp [update_from_message, carried, getField, put, t1, t2, t3, t4, hp]
          · by_cases t5 : m.side = some (Val.vstr "no")
            · cases f <;>
                simp [update_from_message, carried, getField, put, t1, t2, t3, t4, t5, hp]
            · cases f <;>
                simp [update_from_message, carried, getField, put, t1, t2, t3, t4, t5, hp]
      · cases f <;> simp [update_from_message, carried, getField, put, t1, t2, t3]
    · by_cases t3 : m.typ = some (Val.vstr "ticker")
      · by_cases t4 : m.market_ticker = some (Val.vstr cid)
        · cases f <;> simp [update_from_message, carried, getField, put, t1, t2, t3, t4]
        · cases f <;> simp [update_from_message, carried, getField, put, t1, t2, t3, t4]
      · by_cases t4 : m.typ = some (Val.vstr "trade")
        · by_cases t5 : m.market_ticker = some (Val.vstr cid)
          · rcases hv : m.volume with _ | u
            · cases f <;>
                simp [update_from_message, carried, getField, put, t1, t2, t3, t4, t5, hv]
            · cases f <;>
                simp [update_from_message, carried, getField, put, t1, t2, t3, t4, t5, hv]
          · cases f <;>
              simp [update_from_message, carried, getField, put, t1, t2, t3, t4, t5]
        · by_cases t5 : m.typ = some (Val.vstr "market")
          · by_cases t6 : m.ticker = some (Val.vstr cid)
            · cases f <;>
                simp [update_from_message, carried, getField, put, t1, t2, t3, t4, t5, t6]
            · cases f <;>
                simp [update_from_message, carried, getField, put, t1, t2, t3, t4, t5, t6]
          · cases f <;>
              simp [update_from_message, carried, getField, put, t1, t2, t3, t4, t5]

theorem carried_write (cid : String) (m : Msg) (f : Field) (v : Val)
    (h : carried cid m f = some v) (s : ContractData) :
    getField f (update_from_message cid s m) = some v := by
  rw [getField_update]
  by_cases hC : m.typ = some (Val.vstr "trade") ∧ m.market_ticker = some (Val.vstr cid)
      ∧ f = Field.volume ∧ m.volume = none
  · exfalso
    obtain ⟨h1, h2, h3, h4⟩ := hC
    subst h3
    simp [carried, h1, h2, h4] at h
  · rw [if_neg hC, h]
    rfl

theorem carried_none_keep (cid : String) (m : Msg) (f : Field) (v : Val)
    (h : carried cid m f = none) (s : ContractData) (hs : getField f s = some v) :
    getField f (update_from_message cid s m) = some v := by
  rw [getField_update]
  by_cases hC : m.typ = some (Val.vstr "trade") ∧ m.market_ticker = some (Val.vstr cid)
      ∧ f = Field.volume ∧ m.volume = none
  · rw [if_pos hC]
    obtain ⟨-, -, h3, -⟩ := hC
    subst h3
    rw [hs]
    rfl
  · rw [if_neg hC, h]
    exact hs

theorem update_idem (cid : String) (s : ContractData) (m : Msg) :
    update_from_message cid (update_from_message cid s m) m
      = update_from_message cid s m := by
  rw [data_ext_iff]
  intro f
  rw [getField_update]
  by_cases hC : m.typ = some (Val.vstr "trade") ∧ m.market_ticker = some (Val.vstr cid)
      ∧ f = Field.volume ∧ m.volume = none
  · rw [if_pos hC]
    obtain ⟨h1, h2, h3, h4⟩ := hC
    subst h3
    rw [getField_update cid s m Field.volume, if_pos ⟨h1, h2, rfl, h4⟩]
    rfl
  · rw [if_neg hC, getField_update cid s m f, if_neg hC]
    exact put_put _ _

theorem carried_nonmatching (cid : String) (m : Msg) (f : Field)
    (h : embeddedId m ≠ some (Val.vstr cid)) :
    carried cid m f = none := by
  unfold embeddedId at h
  by_cases hM : m.typ = some (Val.vstr "market")
  · rw [if_pos hM] at h
    cases f <;> simp [carried, hM, h]
  · rw [if_neg hM] at h
    cases f <;> simp [carried, hM, h]

theorem applySeq_keep (cid : String) (f : Field) (v : Val) (es : List Msg) :
    ∀ s : ContractData, (∀ e ∈ es, carried cid e f = none) →
      getField f s = some v → getField f (applySeq cid s es) = some v := by
  induction es with
  | nil => exact fun s _ hs => hs
  | cons e tl ih =>
    intro s h hs
    have he := h e (List.mem_cons_self e tl)
    have htl : ∀ x ∈ tl, carried cid x f = none :=
      fun x hx => h x (List.mem_cons_of_mem _ hx)
    exact ih _ htl (carried_none_keep cid e f v he s hs)

/-- C1 counterexample: the claim is false as stated.  Applying to a fresh
store the single matching `trade` event that carries neither the
execution-price field (`yes_price`) nor `volume` does NOT leave `last_price`
and `volume` unchanged: line 242 stores `data.get("yes_price")`, i.e. null,
into `last_price`, and line 243 stores the default 0 into `volume`. -/
theorem C1_counterexample :
    tradeBare.yes_price = none ∧ tradeBare.volume = none ∧
    getField Field.last_price emptyData = none ∧
    getField Field.volume emptyData = none ∧
    getField Field.last_price (applySeq "MKT" emptyData [tradeBare]) = some Val.vnull ∧
    getField Field.volume (applySeq "MKT" emptyData [tradeBare]) = some (Val.vint 0) := by
  decide

/-- C1 (amended): for every event sequence applied to a fresh StateStore, a
field's stored value after the sequence equals the value explicitly carried
for that field by the last event that carries one — where a matching `trade`
event carries `last_price` = its `yes_price` payload value (null when the
key is absent) and carries `volume` only when the payload includes the key
(otherwise it rewrites the stored volume, so it carries nothing for it). -/
theorem C1_last_writer_wins (cid : String) (f : Field) (v : Val)
    (pre post : List Msg) (m : Msg)
    (hm : carried cid m f = some v)
    (hpost : ∀ e ∈ post, carried cid e f = none) :
    getField f (applySeq cid emptyData (pre ++ m :: post)) = some v := by
  have hsplit : applySeq cid emptyData (pre ++ m :: post)
      = applySeq cid (update_from_message cid (applySeq cid emptyData pre) m) post := by
    simp [applySeq, List.foldl_append]
  rw [hsplit]
  exact applySeq_keep cid f v post _ hpost (carried_write cid m f v hm _)

/-- C1 witness: a `ticker` event carrying `yes_bid = 46` followed by a
carrier-free `trade` event leaves `yes_bid = 46`. -/
theorem C1_last_writer_wins_witness :
    carried "MKT" tickerYes46 Field.yes_bid = some (Val.vint 46) ∧
    getField Field.yes_bid (applySeq "MKT" emptyData ([] ++ tickerYes46 :: [tradeBare]))
      = some (Val.vint 46) :=
  ⟨by decide,
   C1_last_writer_wins "MKT" Field.yes_bid (Val.vint 46) [] [tradeBare] tickerYes46
     (by decide) (by decide)⟩

/-- C2 counterexample: the claim is false as stated.  With `last_price`
holding the set, non-null value 5, a matching `trade` event whose payload
carries neither `yes_price` nor any `last_price` value alters `last_price`
to null (line 242) — a value the event does not explicitly carry for that
field. -/
theorem C2_counterexample :
    getField Field.last_price dataLp5 = some (Val.vint 5) ∧
    tradeBare.yes_price = none ∧ tradeBare.last_price = none ∧
    getField Field.last_price (update_from_message "MKT" dataLp5 tradeBare)
      = some Val.vnull := by
  decide

/-- C2 (amended): a field holding a set value before an application is never
unset (the key stays present); it either keeps its value or is replaced by
the value the event writes for that field (`carried`), where a matching
`trade` event writes `last_price` as its `yes_price` payload value or null
when that key is absent, and rewrites an already-set `volume` to itself when
the payload lacks `volume`. -/
theorem C2_set_fields_never_unset (cid : String) (s : ContractData) (m : Msg)
    (f : Field) (v : Val) (h : getField f s = some v) :
    (∃ w, getField f (update_from_message cid s m) = some w) ∧
    (getField f (update_from_message cid s m) = some v ∨
     getField f (update_from_message cid s m) = carried cid m f) := by
  rcases hc : carried cid m f with _ | w
  · exact ⟨⟨v, carried_none_keep cid m f v hc s h⟩,
      Or.inl (carried_none_keep cid m f v hc s h)⟩
  · exact ⟨⟨w, carried_write cid m f w hc s⟩,
      Or.inr (carried_write cid m f w hc s)⟩

/-- C2 witness: instantiated at the store with `last_price = 5` and the bare
`trade` event. -/
theorem C2_set_fields_never_unset_witness :
    (∃ w, getField Field.last_price (update_from_message "MKT" dataLp5 tradeBare)
        = some w) ∧
    (getField Field.last_price (update_from_message "MKT" dataLp5 tradeBare)
        = some (Val.vint 5) ∨
     getField Field.last_price (update_from_message "MKT" dataLp5 tradeBare)
        = carried "MKT" tradeBare Field.last_price) :=
  C2_set_fields_never_unset "MKT" dataLp5 tradeBare Field.last_price (Val.vint 5)
    (by decide)

/-- C3: the code violates this claim.  An iteration of the receive loop that
gets a frame which fails to parse executes `continue` (line 319), jumping
past `self.spinner_index += 1` (line 321) — despite the code's own comment
"Update spinner on every iteration" (line 320).  A timeout iteration and a
parsed-message iteration do advance the counter; a malformed-frame
iteration leaves it unchanged. -/
theorem C3_malformed_does_not_advance_liveness :
    (runStep "MKT" ⟨Phase.listening, emptyData, 7⟩ RunEvent.recvMalformed).spinner = 7 ∧
    (runStep "MKT" ⟨Phase.listening, emptyData, 7⟩ RunEvent.recvTimeout).spinner = 8 ∧
    (runStep "MKT" ⟨Phase.listening, emptyData, 7⟩ (RunEvent.recvMsg tickerYes46)).spinner
      = 8 := by
  decide

/-- C4 counterexample: the claim is false as stated.  The frame `[1,2,3]`
decodes as JSON (so `json.loads` at line 311 succeeds) yet fails to parse
as the expected structured data: `msg.get("type")` on a list raises
AttributeError, which the inner handlers (lines 316-319, catching only
`TimeoutError` and `JSONDecodeError`) do not catch.  The frame is therefore
not skipped: the exception leaves the listening loop and the connection
context and lands in `except Exception` (line 327), triggering the
5-second reconnect — contradicting "never raises out of the loop and never
triggers the Closed transition or a reconnect". -/
theorem C4_counterexample :
    frameRaises "MKT" badFrame = true ∧
    frameFate "MKT" (some badFrame) = FrameFate.updateRaised ∧
    frameFate "MKT" (some badFrame) ≠ FrameFate.skipped ∧
    runStep "MKT" ⟨Phase.listening, emptyData, 3⟩ RunEvent.connError
      = ⟨Phase.waiting 5, emptyData, 3⟩ := by
  decide

/-- C4 (amended): an inbound frame that fails to decode as JSON is skipped
and the loop continues listening on the same connection — the
`json.JSONDecodeError` handler (lines 318-319) continues the inner loop, so
such a frame never raises out of the loop and never triggers the Closed
transition or a reconnect.  A frame that decodes as JSON but on which
`update_from_message` raises (unexpected shape) is NOT skipped: the
exception escapes the listening loop into the generic handler (line 327) —
the transition `runStep` models as `connError` — which puts the session
into the fixed 5-second wait before reconnecting. -/
theorem C4_decode_failures_skipped (cid : String) (d : ContractData) (n : Nat) :
    runStep cid ⟨Phase.listening, d, n⟩ RunEvent.recvMalformed
      = ⟨Phase.listening, d, n⟩ ∧
    frameFate cid none = FrameFate.skipped ∧
    (∀ j : Json, frameRaises cid j = true →
      frameFate cid (some j) = FrameFate.updateRaised ∧
      frameFate cid (some j) ≠ FrameFate.skipped) ∧
    runStep cid ⟨Phase.listening, d, n⟩ RunEvent.connError
      = ⟨Phase.waiting 5, d, n⟩ := by
  refine ⟨rfl, rfl, ?_, rfl⟩
  intro j h
  constructor <;> simp [frameFate, h]

/-- C4 witness: the `[1,2,3]` frame raises, exercising the hypothesis of
the amended theorem at a concrete input. -/
theorem C4_decode_failures_skipped_witness :
    frameFate "MKT" (some badFrame) = FrameFate.updateRaised ∧
    frameFate "MKT" (some badFrame) ≠ FrameFate.skipped :=
  (C4_decode_failures_skipped "MKT" emptyData 0).2.2.1 badFrame (by decide)

/-- C5: `changed` (computed by comparing the whole dictionary before and
after at line 314) is true on the first application exactly when some field
differs, and a second application of the identical event is a fixed point,
so its `changed` is false. -/
theorem C5_apply_idempotent (cid : String) (s : ContractData) (m : Msg) :
    (update_from_message cid s m ≠ s ↔
      ∃ f, getField f (update_from_message cid s m) ≠ getField f s) ∧
    update_from_message cid (update_from_message cid s m) m
      = update_from_message cid s m := by
  constructor
  · constructor
    · intro hne
      by_contra hall
      push_neg at hall
      exact hne ((data_ext_iff _ _).mpr hall)
    · rintro ⟨f, hf⟩ he
      exact hf (by rw [he])
  · exact update_idem cid s m

/-- C6: an event whose embedded contract identifier (the `ticker` payload
key for the `market` type, `market_ticker` for all others) differs from the
store's bound identifier is a no-op: the store is returned unchanged, so the
dictionary comparison at line 314 reports no change. -/
theorem C6_nonmatching_noop (cid : String) (s : ContractData) (m : Msg)
    (h : embeddedId m ≠ some (Val.vstr cid)) :
    update_from_message cid s m = s := by
  rw [data_ext_iff]
  intro f
  rw [getField_update]
  have hC : ¬(m.typ = some (Val.vstr "trade") ∧ m.market_ticker = some (Val.vstr cid)
      ∧ f = Field.volume ∧ m.volume = none) := by
    rintro ⟨h1, h2, -, -⟩
    apply h
    unfold embeddedId
    rw [h1, if_neg (by decide), h2]
  rw [if_neg hC, carried_nonmatching cid m f h]
  rfl

/-- C6 witness: a `ticker` event for contract OTHER applied to the MKT store
leaves it unchanged. -/
theorem C6_nonmatching_noop_witness :
    embeddedId tickerOther ≠ some (Val.vstr "MKT") ∧
    update_from_message "MKT" dataLp5 tickerOther = dataLp5 :=
  ⟨by decide, C6_nonmatching_noop "MKT" dataLp5 tickerOther (by decide)⟩

/-- C7: on a transient close (the `ConnectionClosed` handler at lines
324-326 or the generic transport-error handler at lines 327-329) the
supervisor enters a fixed 5-second wait with the store and spinner retained,
the elapsed delay returns to connecting, every field of the store is still
present and unchanged at that moment, and the new session issues exactly the
same three channel subscriptions (lines 253-277). -/
theorem C7_reconnect_preserves_state (cid : String) (d : ContractData) (n : Nat) :
    runStep cid ⟨Phase.listening, d, n⟩ RunEvent.connClosed = ⟨Phase.waiting 5, d, n⟩ ∧
    runStep cid ⟨Phase.listening, d, n⟩ RunEvent.connError = ⟨Phase.waiting 5, d, n⟩ ∧
    runStep cid ⟨Phase.waiting 5, d, n⟩ RunEvent.delayDone = ⟨Phase.connecting, d, n⟩ ∧
    (∀ f, getField f (runStep cid (runStep cid ⟨Phase.listening, d, n⟩
        RunEvent.connClosed) RunEvent.delayDone).data = getField f d) ∧
    subscribeCommands cid =
      [⟨1, ["ticker"], [cid]⟩, ⟨2, ["orderbook_delta"], [cid]⟩, ⟨3, ["trade"], [cid]⟩] :=
  ⟨rfl, rfl, rfl, fun _ => rfl, rfl⟩

/-- C8: a signing failure while connecting runs `sys.exit(1)` (line 294);
`SystemExit` does not derive from `Exception`, so the reconnect handlers at
lines 324-329 never see it: the machine moves to `exited 1`, which is not a
`waiting` (5-second retry) phase for any delay. -/
theorem C8_signing_failure_fatal (cid : String) (d : ContractData) (n : Nat) :
    runStep cid ⟨Phase.connecting, d, n⟩ RunEvent.signFail = ⟨Phase.exited 1, d, n⟩ ∧
    ∀ k, (runStep cid ⟨Phase.connecting, d, n⟩ RunEvent.signFail).phase ≠ Phase.waiting k :=
  ⟨rfl, fun _ h => Phase.noConfusion h⟩

/-- C9: `sign_request` signs exactly the canonical message
`timestamp ++ method ++ path` (line 105, no separators): two signatures of
the same triple under the same key, with different PSS salts, both verify
against the corresponding public key, a signature verifies only the
canonical message, and distinct salts give distinct signatures. -/
theorem C9_sign_request_canonical (key salt1 salt2 : Nat)
    (timestamp method path : String) :
    pssVerify (pubOf key) (timestamp ++ method ++ path)
      (sign_request key salt1 timestamp method path) = true ∧
    pssVerify (pubOf key) (timestamp ++ method ++ path)
      (sign_request key salt2 timestamp method path) = true ∧
    (∀ msg, pssVerify (pubOf key) msg (sign_request key salt1 timestamp method path)
        = true → msg = timestamp ++ method ++ path) ∧
    (salt1 ≠ salt2 →
      sign_request key salt1 timestamp method path
        ≠ sign_request key salt2 timestamp method path) := by
  refine ⟨?_, ?_, ?_, ?_⟩
  · simp [pssVerify, sign_request, pssSign, pubOf]
  · simp [pssVerify, sign_request, pssSign, pubOf]
  · intro msg hv
    simp [pssVerify, sign_request, pssSign, pubOf] at hv
    exact hv.symm
  · intro hne hEq
    exact hne (congrArg PssSig.salt hEq)

/-- C9 witness: instantiated at key 7, salts 3 and 4, and the streaming
handshake triple. -/
theorem C9_sign_request_canonical_witness :
    pssVerify (pubOf 7) ("1700" ++ "GET" ++ "/trade-api/ws/v2")
      (sign_request 7 3 "1700" "GET" "/trade-api/ws/v2") = true ∧
    "1700GET/trade-api/ws/v2" = "1700" ++ "GET" ++ "/trade-api/ws/v2" ∧
    sign_request 7 3 "1700" "GET" "/trade-api/ws/v2"
      ≠ sign_request 7 4 "1700" "GET" "/trade-api/ws/v2" :=
  ⟨(C9_sign_request_canonical 7 3 4 "1700" "GET" "/trade-api/ws/v2").1,
   (C9_sign_request_canonical 7 3 4 "1700" "GET" "/trade-api/ws/v2").2.2.1
     "1700GET/trade-api/ws/v2" (by decide),
   (C9_sign_request_canonical 7 3 4 "1700" "GET" "/trade-api/ws/v2").2.2.2
     (by decide)⟩

/-- C10: a matching `orderbook_snapshot` overwrites `yes_bid` with the first
component of the first `yes` level when that list is non-empty and leaves it
unchanged otherwise, symmetrically for `no` and `no_bid`, and modifies no
other field (lines 211-219). -/
theorem C10_orderbook_snapshot_merge (cid : String) (s : ContractData) (m : Msg)
    (hty : m.typ = some (Val.vstr "orderbook_snapshot"))
    (hmt : m.market_ticker = some (Val.vstr cid)) :
    (∀ p r tl, m.yes = (p, r) :: tl →
        getField Field.yes_bid (update_from_message cid s m) = some p) ∧
    (m.yes = [] →
        getField Field.yes_bid (update_from_message cid s m) = getField Field.yes_bid s) ∧
    (∀ q r tl, m.no = (q, r) :: tl →
        getField Field.no_bid (update_from_message cid s m) = some q) ∧
    (m.no = [] →
        getField Field.no_bid (update_from_message cid s m) = getField Field.no_bid s) ∧
    (∀ f, f ≠ Field.yes_bid → f ≠ Field.no_bid →
        getField f (update_from_message cid s m) = getField f s) := by
  have hsnap : ∀ f, getField f (update_from_message cid s m)
      = put (carried cid m f) (getField f s) := by
    intro f
    rw [getField_update]
    have hC : ¬(m.typ = some (Val.vstr "trade")
        ∧ m.market_ticker = some (Val.vstr cid)
        ∧ f = Field.volume ∧ m.volume = none) := by
      rintro ⟨h1, -, -, -⟩
      rw [hty] at h1
      exact absurd h1 (by decide)
    rw [if_neg hC]
  refine ⟨?_, ?_, ?_, ?_, ?_⟩
  · intro p r tl hy
    rw [hsnap]
    simp [carried, headPrice, hty, hmt, hy, put]
  · intro hy
    rw [hsnap]
    simp [carried, headPrice, hty, hmt, hy, put]
  · intro q r tl hn
    rw [hsnap]
    simp [carried, headPrice, hty, hmt, hn, put]
  · intro hn
    rw [hsnap]
    simp [carried, headPrice, hty, hmt, hn, put]
  · intro f hf1 hf2
    rw [hsnap]
    cases f <;> simp_all [carried, hty, hmt, put]

/-- C10 witness: the concrete snapshot with one `yes` level `[45, 100]` and
no `no` levels, applied to the store with `last_price = 5`. -/
theorem C10_orderbook_snapshot_merge_witness :
    getField Field.yes_bid (update_from_message "MKT" dataLp5 snapMsg)
      = some (Val.vint 45) ∧
    getField Field.no_bid (update_from_message "MKT" dataLp5 snapMsg)
      = getField Field.no_bid dataLp5 ∧
    getField Field.last_price (update_from_message "MKT" dataLp5 snapMsg)
      = getField Field.last_price dataLp5 :=
  ⟨(C10_orderbook_snapshot_merge "MKT" dataLp5 snapMsg (by decide) (by decide)).1
     (Val.vint 45) [Val.vint 100] [] (by decide),
   (C10_orderbook_snapshot_merge "MKT" dataLp5 snapMsg (by decide) (by decide)).2.2.2.1
     (by decide),
   (C10_orderbook_snapshot_merge "MKT" dataLp5 snapMsg (by decide) (by decide)).2.2.2.2
     Field.last_price (by decide) (by decide)⟩

end KalshiCli
